import Mathlib

/-!
Verification of `tools/package_tool.py` (RBL firmware-package builder).

The source builds a fixed-layout 96-byte header over two byte buffers
(the new firmware and the binary patch that forms the package body) and
prepends the header to the patch bytes.  We embed the byte-level
operations shallowly: Python `bytes` objects become `List Nat` (each
element a byte value), `struct.pack` calls become explicit little-endian
serializers that return `Option` where the Python call can raise
`struct.error`, `str.encode('utf-8')` becomes an explicit UTF-8 encoder
over the string's scalar values, and `zlib.crc32` becomes the standard
bitwise reflected CRC-32 (polynomial 0xEDB88320, initial value
0xFFFFFFFF, final xor 0xFFFFFFFF), masked with `% 2^32` exactly as the
source masks with `& 0xFFFFFFFF`.
-/

/-- Bitwise step of the reflected CRC-32: one shift of the working
register, xoring in the reversed polynomial 0xEDB88320 when the bit
shifted out was set (`c % 2 * 0xEDB88320` is the polynomial exactly
when the low bit of `c` is 1, and 0 otherwise). -/
def crc32Step (c : Nat) : Nat :=
  (c / 2) ^^^ (c % 2 * 0xEDB88320)

/-- Fold one byte into the CRC-32 register: xor the byte into the low
bits, then perform eight bit steps. -/
def crc32UpdateByte (c b : Nat) : Nat :=
  crc32Step (crc32Step (crc32Step (crc32Step
    (crc32Step (crc32Step (crc32Step (crc32Step (c ^^^ b))))))))

/-- Embedding of the source's `crc32` helper, i.e. of
`zlib.crc32(bytes_obj) & 0xFFFFFFFF`: the standard CRC-32 with initial
register 0xFFFFFFFF and final xor 0xFFFFFFFF, masked to 32 bits. -/
def crc32 (bytes_obj : List Nat) : Nat :=
  ((bytes_obj.foldl crc32UpdateByte 0xFFFFFFFF) ^^^ 0xFFFFFFFF) % 4294967296

/-- Little-endian byte decomposition of a 16-bit value. -/
def le16 (n : Nat) : List Nat :=
  [n % 256, n / 256 % 256]

/-- Little-endian byte decomposition of a 32-bit value. -/
def le32 (n : Nat) : List Nat :=
  [n % 256, n / 256 % 256, n / 65536 % 256, n / 16777216 % 256]

/-- Embedding of `struct.pack('<H', n)`: packs a little-endian unsigned
16-bit integer, raising `struct.error` (here: `none`) when the value is
out of range. -/
def pack_u16 (n : Nat) : Option (List Nat) :=
  if n < 65536 then some (le16 n) else none

/-- Embedding of `struct.pack('<I', n)`: packs a little-endian unsigned
32-bit integer, raising `struct.error` (here: `none`) when the value is
out of range.  Python 3 rejects out-of-range values; it does not
truncate them. -/
def pack_u32 (n : Nat) : Option (List Nat) :=
  if n < 4294967296 then some (le32 n) else none

/-- Embedding of `struct.pack('Ns', bs)`: the bytes are truncated to `w`
bytes if longer and right-padded with null bytes to exactly `w` bytes if
shorter. -/
def pack_bytes (w : Nat) (bs : List Nat) : List Nat :=
  bs.take w ++ List.replicate (w - bs.length) 0

/-- UTF-8 encoding of one Unicode scalar value, as byte values. -/
def utf8EncodeChar (c : Char) : List Nat :=
  let n := c.toNat
  if n < 128 then [n]
  else if n < 2048 then [192 + n / 64, 128 + n % 64]
  else if n < 65536 then [224 + n / 4096, 128 + n / 64 % 64, 128 + n % 64]
  else [240 + n / 262144, 128 + n / 4096 % 64, 128 + n / 64 % 64, 128 + n % 64]

/-- Embedding of `s.encode('utf-8')` for a string of Unicode scalar
values (Lean characters are exactly Unicode scalar values, so encoding
is total here; Python raises only on lone surrogates, which `Char`
cannot represent). -/
def utf8Encode (s : String) : List Nat :=
  s.data.foldr (fun c acc => utf8EncodeChar c ++ acc) []

/-- The source constant `QBOOT_ALGO_CRYPT_NONE = 0`. -/
def QBOOT_ALGO_CRYPT_NONE : Nat := 0

/-- The source constant `QBOOT_ALGO_CMPRS_HPATCHLITE = (4 << 8)`. -/
def QBOOT_ALGO_CMPRS_HPATCHLITE : Nat := 4 <<< 8

/-- The source constant `QBOOT_ALGO2_VERIFY_CRC = 1`. -/
def QBOOT_ALGO2_VERIFY_CRC : Nat := 1

/-- Embedding of `create_firmware_header`.  Field by field in source
order: the 4-byte magic `b'RBL\x00'` packed with `'4s'`, `algo` and
`algo2` packed with `'<H'`, the timestamp packed with `'<I'`, the three
string fields UTF-8 encoded and packed with `'16s'`/`'24s'`/`'24s'`,
then the patch CRC, firmware CRC, firmware length and patch length each
packed with `'<I'`; all fields are concatenated and the CRC-32 of that
concatenation is appended as the trailing 4-byte header CRC.  Each
fallible `struct.pack` call is sequenced with `Option.bind`, matching
the Python exception behaviour. -/
def create_firmware_header (new_fw_obj patch_obj : List Nat)
    (algo algo2 timestamp : Nat)
    (part_name_str fw_ver_str prod_code_str : String) : Option (List Nat) :=
  let type_4 := pack_bytes 4 [82, 66, 76, 0]
  (pack_u16 algo).bind fun algo_pack =>
  (pack_u16 algo2).bind fun algo2_pack =>
  (pack_u32 timestamp).bind fun time_stamp_pack =>
  let part_name := pack_bytes 16 (utf8Encode part_name_str)
  let fw_ver := pack_bytes 24 (utf8Encode fw_ver_str)
  let prod_code := pack_bytes 24 (utf8Encode prod_code_str)
  (pack_u32 (crc32 patch_obj)).bind fun pkg_crc_pack =>
  (pack_u32 (crc32 new_fw_obj)).bind fun raw_crc_pack =>
  (pack_u32 new_fw_obj.length).bind fun raw_size_pack =>
  (pack_u32 patch_obj.length).bind fun pkg_size_pack =>
  let header_no_crc := type_4 ++ algo_pack ++ algo2_pack ++ time_stamp_pack ++
                       part_name ++ fw_ver ++ prod_code ++
                       pkg_crc_pack ++ raw_crc_pack ++ raw_size_pack ++ pkg_size_pack
  (pack_u32 (crc32 header_no_crc)).bind fun hdr_crc_pack =>
  some (header_no_crc ++ hdr_crc_pack)

/-- Embedding of the packaging step of `package_patch`: the output file
is the header followed immediately by the raw patch bytes.  The source
hard-codes `algo = QBOOT_ALGO_CMPRS_HPATCHLITE`,
`algo2 = QBOOT_ALGO_CRYPT_NONE`, part name `'app'`, version `'v1.00'`
and product code `'00010203040506070809'`; the timestamp comes from the
patch file's modification time and is a parameter here. -/
def package_patch_bytes (patch_obj new_fw_obj : List Nat) (timestamp : Nat) :
    Option (List Nat) :=
  (create_firmware_header new_fw_obj patch_obj
      QBOOT_ALGO_CMPRS_HPATCHLITE QBOOT_ALGO_CRYPT_NONE timestamp
      "app" "v1.00" "00010203040506070809").map
    (fun my_head => my_head ++ patch_obj)

/-- Little-endian uint32 read-back of a 4-byte field, as a verifier
would decode it. -/
def fromLE32 (bs : List Nat) : Nat :=
  match bs with
  | [a, b, c, d] => a + 256 * b + 65536 * c + 16777216 * d
  | _ => 0

/-- The header body before the trailing CRC field, spelled out.  Used
only in proofs (via the characterization of `create_firmware_header`),
never by the embedding itself. -/
def headerBody (new_fw_obj patch_obj : List Nat) (algo algo2 timestamp : Nat)
    (part_name_str fw_ver_str prod_code_str : String) : List Nat :=
  pack_bytes 4 [82, 66, 76, 0] ++ le16 algo ++ le16 algo2 ++ le32 timestamp ++
  pack_bytes 16 (utf8Encode part_name_str) ++
  pack_bytes 24 (utf8Encode fw_ver_str) ++
  pack_bytes 24 (utf8Encode prod_code_str) ++
  le32 (crc32 patch_obj) ++ le32 (crc32 new_fw_obj) ++
  le32 new_fw_obj.length ++ le32 patch_obj.length

/-- The full header, spelled out: body plus trailing CRC. -/
def fullHeader (new_fw_obj patch_obj : List Nat) (algo algo2 timestamp : Nat)
    (part_name_str fw_ver_str prod_code_str : String) : List Nat :=
  headerBody new_fw_obj patch_obj algo algo2 timestamp
      part_name_str fw_ver_str prod_code_str ++
  le32 (crc32 (headerBody new_fw_obj patch_obj algo algo2 timestamp
      part_name_str fw_ver_str prod_code_str))

/-- Claim-side property, worded from the spec (not from the source):
a string field of width `w` for string `s` was truncated at a codepoint
boundary if it is the UTF-8 encoding of some prefix of whole codepoints
of `s` that fits in `w` bytes, right-padded with zero bytes. -/
def codepointBoundaryTruncation (w : Nat) (s : String) (field : List Nat) : Prop :=
  ∃ k, k ≤ s.data.length ∧
    (utf8Encode (String.mk (s.data.take k))).length ≤ w ∧
    field = utf8Encode (String.mk (s.data.take k)) ++
      List.replicate (w - (utf8Encode (String.mk (s.data.take k))).length) 0

/-- A 16-codepoint partition name whose UTF-8 encoding is 17 bytes:
fifteen ASCII letters followed by one two-byte codepoint. -/
def badPartName : String := "aaaaaaaaaaaaaaaé"

/-- The new-firmware bytes of the end-to-end scenario, `b'FIRMWAREDATA'`. -/
def fwDemo : List Nat := [70, 73, 82, 77, 87, 65, 82, 69, 68, 65, 84, 65]

/-- The patch-body bytes of the end-to-end scenario, `b'PATCHDATA'`. -/
def patchDemo : List Nat := [80, 65, 84, 67, 72, 68, 65, 84, 65]

set_option maxRecDepth 6000

theorem crc32_lt (bs : List Nat) : crc32 bs < 4294967296 :=
  Nat.mod_lt _ (by norm_num)

theorem pack_u32_crc32 (bs : List Nat) :
    pack_u32 (crc32 bs) = some (le32 (crc32 bs)) := by
  simp [pack_u32, crc32_lt]

theorem pack_bytes_length (w : Nat) (bs : List Nat) :
    (pack_bytes w bs).length = w := by
  simp only [pack_bytes, List.length_append, List.length_take,
    List.length_replicate]
  omega

theorem le16_length (n : Nat) : (le16 n).length = 2 := rfl

theorem le32_length (n : Nat) : (le32 n).length = 4 := rfl

theorem headerBody_length (fw patch : List Nat) (a a2 ts : Nat)
    (pn fv pc : String) :
    (headerBody fw patch a a2 ts pn fv pc).length = 92 := by
  simp [headerBody, pack_bytes_length, le16_length, le32_length]

/-- Characterization of a successful run of `create_firmware_header`:
it returns `some` exactly when every `struct.pack` range check passes,
and then the result is the spelled-out header. -/
theorem create_firmware_header_eq_some (fw patch : List Nat) (a a2 ts : Nat)
    (pn fv pc : String) (hd : List Nat) :
    create_firmware_header fw patch a a2 ts pn fv pc = some hd ↔
      (a < 65536 ∧ a2 < 65536 ∧ ts < 4294967296 ∧
       fw.length < 4294967296 ∧ patch.length < 4294967296 ∧
       hd = fullHeader fw patch a a2 ts pn fv pc) := by
  by_cases h1 : a < 65536 <;> by_cases h2 : a2 < 65536 <;>
    by_cases h3 : ts < 4294967296 <;>
    by_cases h4 : fw.length < 4294967296 <;>
    by_cases h5 : patch.length < 4294967296 <;>
    simp [create_firmware_header, pack_u16, pack_u32, h1, h2, h3, h4, h5,
      crc32_lt, fullHeader, headerBody, eq_comm]

theorem chunk_skip {c rest : List Nat} {n k j : Nat} (hc : c.length = k)
    (hn : n = k + j) : (c ++ rest).drop n = rest.drop j := by
  subst hn
  rw [← hc, ← List.drop_drop, List.drop_left]

theorem chunk_take {c rest : List Nat} {k : Nat} (hc : c.length = k) :
    (c ++ rest).take k = c :=
  List.take_left' hc

theorem fromLE32_le32 {n : Nat} (h : n < 4294967296) : fromLE32 (le32 n) = n := by
  simp only [fromLE32, le32]
  omega

theorem fullHeader_length (fw patch : List Nat) (a a2 ts : Nat)
    (pn fv pc : String) :
    (fullHeader fw patch a a2 ts pn fv pc).length = 96 := by
  simp [fullHeader, headerBody_length, le32_length]

theorem fullHeader_take_92 (fw patch : List Nat) (a a2 ts : Nat)
    (pn fv pc : String) :
    (fullHeader fw patch a a2 ts pn fv pc).take 92 =
      headerBody fw patch a a2 ts pn fv pc := by
  simp only [fullHeader]
  exact chunk_take (headerBody_length fw patch a a2 ts pn fv pc)

theorem fullHeader_drop_92 (fw patch : List Nat) (a a2 ts : Nat)
    (pn fv pc : String) :
    (fullHeader fw patch a a2 ts pn fv pc).drop 92 =
      le32 (crc32 (headerBody fw patch a a2 ts pn fv pc)) := by
  simp only [fullHeader]
  exact List.drop_left' (headerBody_length fw patch a a2 ts pn fv pc)

theorem fullHeader_drop_take (fw patch : List Nat) (a a2 ts : Nat)
    (pn fv pc : String) {n k : Nat} (h : n + k ≤ 92) :
    ((fullHeader fw patch a a2 ts pn fv pc).drop n).take k =
      ((headerBody fw patch a a2 ts pn fv pc).drop n).take k := by
  simp only [fullHeader]
  rw [List.drop_append_of_le_length (by rw [headerBody_length]; omega),
      List.take_append_of_le_length
        (by rw [List.length_drop, headerBody_length]; omega)]

theorem le32_take_4 (n : Nat) : (le32 n).take 4 = le32 n := by
  rw [← le32_length n, List.take_length]

theorem headerBody_magic (fw patch : List Nat) (a a2 ts : Nat)
    (pn fv pc : String) :
    (headerBody fw patch a a2 ts pn fv pc).take 4 = [82, 66, 76, 0] := by
  simp only [headerBody, List.append_assoc]
  rw [chunk_take (pack_bytes_length 4 _)]
  decide

theorem headerBody_timestamp (fw patch : List Nat) (a a2 ts : Nat)
    (pn fv pc : String) :
    ((headerBody fw patch a a2 ts pn fv pc).drop 8).take 4 = le32 ts := by
  simp only [headerBody, List.append_assoc]
  rw [chunk_skip (pack_bytes_length 4 _) (by norm_num : (8:Nat) = 4 + 4),
      chunk_skip (le16_length a) (by norm_num : (4:Nat) = 2 + 2),
      chunk_skip (le16_length a2) (by norm_num : (2:Nat) = 2 + 0),
      List.drop_zero, chunk_take (le32_length ts)]

theorem headerBody_part_name (fw patch : List Nat) (a a2 ts : Nat)
    (pn fv pc : String) :
    ((headerBody fw patch a a2 ts pn fv pc).drop 12).take 16 =
      pack_bytes 16 (utf8Encode pn) := by
  simp only [headerBody, List.append_assoc]
  rw [chunk_skip (pack_bytes_length 4 _) (by norm_num : (12:Nat) = 4 + 8),
      chunk_skip (le16_length a) (by norm_num : (8:Nat) = 2 + 6),
      chunk_skip (le16_length a2) (by norm_num : (6:Nat) = 2 + 4),
      chunk_skip (le32_length ts) (by norm_num : (4:Nat) = 4 + 0),
      List.drop_zero, chunk_take (pack_bytes_length 16 _)]

theorem headerBody_fw_ver (fw patch : List Nat) (a a2 ts : Nat)
    (pn fv pc : String) :
    ((headerBody fw patch a a2 ts pn fv pc).drop 28).take 24 =
      pack_bytes 24 (utf8Encode fv) := by
  simp only [headerBody, List.append_assoc]
  rw [chunk_skip (pack_bytes_length 4 _) (by norm_num : (28:Nat) = 4 + 24),
      chunk_skip (le16_length a) (by norm_num : (24:Nat) = 2 + 22),
      chunk_skip (le16_length a2) (by norm_num : (22:Nat) = 2 + 20),
      chunk_skip (le32_length ts) (by norm_num : (20:Nat) = 4 + 16),
      chunk_skip (pack_bytes_length 16 _) (by norm_num : (16:Nat) = 16 + 0),
      List.drop_zero, chunk_take (pack_bytes_length 24 _)]

theorem headerBody_prod_code (fw patch : List Nat) (a a2 ts : Nat)
    (pn fv pc : String) :
    ((headerBody fw patch a a2 ts pn fv pc).drop 52).take 24 =
      pack_bytes 24 (utf8Encode pc) := by
  simp only [headerBody, List.append_assoc]
  rw [chunk_skip (pack_bytes_length 4 _) (by norm_num : (52:Nat) = 4 + 48),
      chunk_skip (le16_length a) (by norm_num : (48:Nat) = 2 + 46),
      chunk_skip (le16_length a2) (by norm_num : (46:Nat) = 2 + 44),
      chunk_skip (le32_length ts) (by norm_num : (44:Nat) = 4 + 40),
      chunk_skip (pack_bytes_length 16 _) (by norm_num : (40:Nat) = 16 + 24),
      chunk_skip (pack_bytes_length 24 _) (by norm_num : (24:Nat) = 24 + 0),
      List.drop_zero, chunk_take (pack_bytes_length 24 _)]

theorem headerBody_pkg_crc (fw patch : List Nat) (a a2 ts : Nat)
    (pn fv pc : String) :
    ((headerBody fw patch a a2 ts pn fv pc).drop 76).take 4 =
      le32 (crc32 patch) := by
  simp only [headerBody, List.append_assoc]
  rw [chunk_skip (pack_bytes_length 4 _) (by norm_num : (76:Nat) = 4 + 72),
      chunk_skip (le16_length a) (by norm_num : (72:Nat) = 2 + 70),
      chunk_skip (le16_length a2) (by norm_num : (70:Nat) = 2 + 68),
      chunk_skip (le32_length ts) (by norm_num : (68:Nat) = 4 + 64),
      chunk_skip (pack_bytes_length 16 _) (by norm_num : (64:Nat) = 16 + 48),
      chunk_skip (pack_bytes_length 24 _) (by norm_num : (48:Nat) = 24 + 24),
      chunk_skip (pack_bytes_length 24 _) (by norm_num : (24:Nat) = 24 + 0),
      List.drop_zero, chunk_take (le32_length _)]

theorem headerBody_raw_crc (fw patch : List Nat) (a a2 ts : Nat)
    (pn fv pc : String) :
    ((headerBody fw patch a a2 ts pn fv pc).drop 80).take 4 =
      le32 (crc32 fw) := by
  simp only [headerBody, List.append_assoc]
  rw [chunk_skip (pack_bytes_length 4 _) (by norm_num : (80:Nat) = 4 + 76),
      chunk_skip (le16_length a) (by norm_num : (76:Nat) = 2 + 74),
      chunk_skip (le16_length a2) (by norm_num : (74:Nat) = 2 + 72),
      chunk_skip (le32_length ts) (by norm_num : (72:Nat) = 4 + 68),
      chunk_skip (pack_bytes_length 16 _) (by norm_num : (68:Nat) = 16 + 52),
      chunk_skip (pack_bytes_length 24 _) (by norm_num : (52:Nat) = 24 + 28),
      chunk_skip (pack_bytes_length 24 _) (by norm_num : (28:Nat) = 24 + 4),
      chunk_skip (le32_length _) (by norm_num : (4:Nat) = 4 + 0),
      List.drop_zero, chunk_take (le32_length _)]

theorem headerBody_raw_size (fw patch : List Nat) (a a2 ts : Nat)
    (pn fv pc : String) :
    ((headerBody fw patch a a2 ts pn fv pc).drop 84).take 4 =
      le32 fw.length := by
  simp only [headerBody, List.append_assoc]
  rw [chunk_skip (pack_bytes_length 4 _) (by norm_num : (84:Nat) = 4 + 80),
      chunk_skip (le16_length a) (by norm_num : (80:Nat) = 2 + 78),
      chunk_skip (le16_length a2) (by norm_num : (78:Nat) = 2 + 76),
      chunk_skip (le32_length ts) (by norm_num : (76:Nat) = 4 + 72),
      chunk_skip (pack_bytes_length 16 _) (by norm_num : (72:Nat) = 16 + 56),
      chunk_skip (pack_bytes_length 24 _) (by norm_num : (56:Nat) = 24 + 32),
      chunk_skip (pack_bytes_length 24 _) (by norm_num : (32:Nat) = 24 + 8),
      chunk_skip (le32_length _) (by norm_num : (8:Nat) = 4 + 4),
      chunk_skip (le32_length _) (by norm_num : (4:Nat) = 4 + 0),
      List.drop_zero, chunk_take (le32_length _)]

theorem headerBody_pkg_size (fw patch : List Nat) (a a2 ts : Nat)
    (pn fv pc : String) :
    ((headerBody fw patch a a2 ts pn fv pc).drop 88).take 4 =
      le32 patch.length := by
  simp only [headerBody, List.append_assoc]
  rw [chunk_skip (pack_bytes_length 4 _) (by norm_num : (88:Nat) = 4 + 84),
      chunk_skip (le16_length a) (by norm_num : (84:Nat) = 2 + 82),
      chunk_skip (le16_length a2) (by norm_num : (82:Nat) = 2 + 80),
      chunk_skip (le32_length ts) (by norm_num : (80:Nat) = 4 + 76),
      chunk_skip (pack_bytes_length 16 _) (by norm_num : (76:Nat) = 16 + 60),
      chunk_skip (pack_bytes_length 24 _) (by norm_num : (60:Nat) = 24 + 36),
      chunk_skip (pack_bytes_length 24 _) (by norm_num : (36:Nat) = 24 + 12),
      chunk_skip (le32_length _) (by norm_num : (12:Nat) = 4 + 8),
      chunk_skip (le32_length _) (by norm_num : (8:Nat) = 4 + 4),
      chunk_skip (le32_length _) (by norm_num : (4:Nat) = 4 + 0),
      List.drop_zero, le32_take_4]

theorem fullHeader_magic (fw patch : List Nat) (a a2 ts : Nat)
    (pn fv pc : String) :
    (fullHeader fw patch a a2 ts pn fv pc).take 4 = [82, 66, 76, 0] := by
  simp only [fullHeader]
  rw [List.take_append_of_le_length (by rw [headerBody_length]; omega),
      headerBody_magic]

/-- C1: for every pair of input byte sequences and metadata accepted by
the builder, the last 4 bytes of the returned header are the
little-endian CRC-32 of all preceding header bytes, so a verifier
recomputing CRC-32 over all header bytes except the trailing 4-byte
field obtains the stored `hdr_crc` value. -/
theorem header_crc_over_preceding_bytes (fw patch : List Nat)
    (a a2 ts : Nat) (pn fv pc : String) (hd : List Nat)
    (h : create_firmware_header fw patch a a2 ts pn fv pc = some hd) :
    hd.drop 92 = le32 (crc32 (hd.take 92)) ∧
    fromLE32 (hd.drop 92) = crc32 (hd.take 92) := by
  obtain ⟨-, -, -, -, -, rfl⟩ :=
    (create_firmware_header_eq_some fw patch a a2 ts pn fv pc hd).mp h
  rw [fullHeader_drop_92, fullHeader_take_92, fromLE32_le32 (crc32_lt _)]
  exact ⟨rfl, rfl⟩

theorem header_crc_over_preceding_bytes_witness :
    ((create_firmware_header [1, 2, 3] [4, 5] 1024 0 1700000000
        "app" "v1.00" "pc").getD []).drop 92 =
      le32 (crc32 (((create_firmware_header [1, 2, 3] [4, 5] 1024 0 1700000000
        "app" "v1.00" "pc").getD []).take 92)) ∧
    fromLE32 (((create_firmware_header [1, 2, 3] [4, 5] 1024 0 1700000000
        "app" "v1.00" "pc").getD []).drop 92) =
      crc32 (((create_firmware_header [1, 2, 3] [4, 5] 1024 0 1700000000
        "app" "v1.00" "pc").getD []).take 92) :=
  header_crc_over_preceding_bytes [1, 2, 3] [4, 5] 1024 0 1700000000
    "app" "v1.00" "pc" _ (by decide)

/-- C2: the header stores CRC-32 of the patch body in `pkg_crc` and the
patch length in `pkg_size`, and CRC-32 of the new firmware in `raw_crc`
and the firmware length in `raw_size`, each as a little-endian uint32,
with the two inputs never conflated. -/
theorem crc_and_size_fields (fw patch : List Nat) (a a2 ts : Nat)
    (pn fv pc : String) (hd : List Nat)
    (h : create_firmware_header fw patch a a2 ts pn fv pc = some hd) :
    (hd.drop 76).take 4 = le32 (crc32 patch) ∧
    (hd.drop 80).take 4 = le32 (crc32 fw) ∧
    fromLE32 ((hd.drop 76).take 4) = crc32 patch ∧
    fromLE32 ((hd.drop 80).take 4) = crc32 fw ∧
    fromLE32 ((hd.drop 84).take 4) = fw.length ∧
    fromLE32 ((hd.drop 88).take 4) = patch.length := by
  obtain ⟨-, -, -, h4, h5, rfl⟩ :=
    (create_firmware_header_eq_some fw patch a a2 ts pn fv pc hd).mp h
  rw [fullHeader_drop_take fw patch a a2 ts pn fv pc (by norm_num : 76 + 4 ≤ 92),
      fullHeader_drop_take fw patch a a2 ts pn fv pc (by norm_num : 80 + 4 ≤ 92),
      fullHeader_drop_take fw patch a a2 ts pn fv pc (by norm_num : 84 + 4 ≤ 92),
      fullHeader_drop_take fw patch a a2 ts pn fv pc (by norm_num : 88 + 4 ≤ 92),
      headerBody_pkg_crc, headerBody_raw_crc, headerBody_raw_size,
      headerBody_pkg_size, fromLE32_le32 (crc32_lt patch),
      fromLE32_le32 (crc32_lt fw), fromLE32_le32 h4, fromLE32_le32 h5]
  exact ⟨rfl, rfl, rfl, rfl, rfl, rfl⟩

theorem crc_and_size_fields_witness :
    fromLE32 ((((create_firmware_header [9, 9] [7, 7, 7] 1024 0 1700000000
        "app" "v1.00" "pc").getD []).drop 84).take 4) = 2 ∧
    fromLE32 ((((create_firmware_header [9, 9] [7, 7, 7] 1024 0 1700000000
        "app" "v1.00" "pc").getD []).drop 88).take 4) = 3 := by
  have h := crc_and_size_fields [9, 9] [7, 7, 7] 1024 0 1700000000
    "app" "v1.00" "pc"
    ((create_firmware_header [9, 9] [7, 7, 7] 1024 0 1700000000
        "app" "v1.00" "pc").getD []) (by decide)
  exact ⟨h.2.2.2.2.1, h.2.2.2.2.2⟩

/-- C3: the header returned by the builder always has the constant
length 96, the sum of the fixed field widths, independent of the sizes
of the firmware and patch inputs. -/
theorem header_length_constant (fw patch : List Nat) (a a2 ts : Nat)
    (pn fv pc : String) (hd : List Nat)
    (h : create_firmware_header fw patch a a2 ts pn fv pc = some hd) :
    hd.length = 96 := by
  obtain ⟨-, -, -, -, -, rfl⟩ :=
    (create_firmware_header_eq_some fw patch a a2 ts pn fv pc hd).mp h
  exact fullHeader_length fw patch a a2 ts pn fv pc

theorem header_length_constant_witness :
    ((create_firmware_header [1, 2, 3, 4, 5, 6, 7] [8, 9] 1024 0 1700000000
        "app" "v1.00" "pc").getD []).length = 96 :=
  header_length_constant [1, 2, 3, 4, 5, 6, 7] [8, 9] 1024 0 1700000000
    "app" "v1.00" "pc" _ (by decide)

/-- C4: the header builder is deterministic; two calls with identical
arguments produce byte-identical output, with no dependence on hidden
state or randomness. -/
theorem create_firmware_header_deterministic
    (fw fw' patch patch' : List Nat) (a a' a2 a2' ts ts' : Nat)
    (pn pn' fv fv' pc pc' : String)
    (h1 : fw = fw') (h2 : patch = patch') (h3 : a = a') (h4 : a2 = a2')
    (h5 : ts = ts') (h6 : pn = pn') (h7 : fv = fv') (h8 : pc = pc') :
    create_firmware_header fw patch a a2 ts pn fv pc =
      create_firmware_header fw' patch' a' a2' ts' pn' fv' pc' := by
  subst h1 h2 h3 h4 h5 h6 h7 h8
  rfl

theorem create_firmware_header_deterministic_witness :
    create_firmware_header [1] [2] 1024 0 1700000000 "app" "v1.00" "pc" =
      create_firmware_header [1] [2] 1024 0 1700000000 "app" "v1.00" "pc" :=
  create_firmware_header_deterministic [1] [1] [2] [2] 1024 1024 0 0
    1700000000 1700000000 "app" "app" "v1.00" "v1.00" "pc" "pc"
    rfl rfl rfl rfl rfl rfl rfl rfl

/-- C10: the first 4 bytes of every header the builder returns are the
magic literal `b'RBL\x00'`, i.e. the byte values 82, 66, 76, 0,
independent of all arguments. -/
theorem header_magic_bytes (fw patch : List Nat) (a a2 ts : Nat)
    (pn fv pc : String) (hd : List Nat)
    (h : create_firmware_header fw patch a a2 ts pn fv pc = some hd) :
    hd.take 4 = [82, 66, 76, 0] := by
  obtain ⟨-, -, -, -, -, rfl⟩ :=
    (create_firmware_header_eq_some fw patch a a2 ts pn fv pc hd).mp h
  exact fullHeader_magic fw patch a a2 ts pn fv pc

theorem header_magic_bytes_witness :
    ((create_firmware_header [255] [0] 1024 0 1700000000
        "boot" "v2.00" "pc2").getD []).take 4 = [82, 66, 76, 0] :=
  header_magic_bytes [255] [0] 1024 0 1700000000 "boot" "v2.00" "pc2" _
    (by decide)

/-- C5 (amended): each string field occupies exactly its declared width
(16/24/24 bytes); a UTF-8 encoding longer than the width is truncated at
the byte boundary — which may split a multi-byte codepoint — and a
shorter one is right-padded with zero bytes. -/
theorem string_fields_width_trunc_pad (fw patch : List Nat) (a a2 ts : Nat)
    (pn fv pc : String) (hd : List Nat)
    (h : create_firmware_header fw patch a a2 ts pn fv pc = some hd) :
    ((hd.drop 12).take 16).length = 16 ∧
    (hd.drop 12).take 16 =
      (utf8Encode pn).take 16 ++ List.replicate (16 - (utf8Encode pn).length) 0 ∧
    ((hd.drop 28).take 24).length = 24 ∧
    (hd.drop 28).take 24 =
      (utf8Encode fv).take 24 ++ List.replicate (24 - (utf8Encode fv).length) 0 ∧
    ((hd.drop 52).take 24).length = 24 ∧
    (hd.drop 52).take 24 =
      (utf8Encode pc).take 24 ++ List.replicate (24 - (utf8Encode pc).length) 0 := by
  obtain ⟨-, -, -, -, -, rfl⟩ :=
    (create_firmware_header_eq_some fw patch a a2 ts pn fv pc hd).mp h
  rw [fullHeader_drop_take fw patch a a2 ts pn fv pc (by norm_num : 12 + 16 ≤ 92),
      fullHeader_drop_take fw patch a a2 ts pn fv pc (by norm_num : 28 + 24 ≤ 92),
      fullHeader_drop_take fw patch a a2 ts pn fv pc (by norm_num : 52 + 24 ≤ 92),
      headerBody_part_name, headerBody_fw_ver, headerBody_prod_code]
  exact ⟨pack_bytes_length 16 _, rfl, pack_bytes_length 24 _, rfl,
    pack_bytes_length 24 _, rfl⟩

theorem string_fields_width_trunc_pad_witness :
    (((create_firmware_header [] [] 1 2 3 "abcdefghijklmnopqrst" "v1"
        "p").getD []).drop 12).take 16 =
      (utf8Encode "abcdefghijklmnopqrst").take 16 ++
        List.replicate (16 - (utf8Encode "abcdefghijklmnopqrst").length) 0 :=
  (string_fields_width_trunc_pad [] [] 1 2 3 "abcdefghijklmnopqrst" "v1" "p"
    ((create_firmware_header [] [] 1 2 3 "abcdefghijklmnopqrst" "v1"
      "p").getD []) (by decide)).2.1

/-- C5 counterexample: with a part name of fifteen ASCII letters
followed by one two-byte codepoint (17 encoded bytes), the 16-byte field
the builder produces is not the zero-padded UTF-8 encoding of any whole-
codepoint prefix of the name: the final codepoint is cut in half at the
byte boundary, leaving a dangling lead byte 195. -/
theorem part_name_mid_codepoint_cex :
    ¬ codepointBoundaryTruncation 16 badPartName
      ((((create_firmware_header [] [] 1024 0 0 badPartName "v1.00"
          "p").getD []).drop 12).take 16) := by
  have hfield : ((((create_firmware_header [] [] 1024 0 0 badPartName "v1.00"
      "p").getD []).drop 12).take 16) =
      [97, 97, 97, 97, 97, 97, 97, 97, 97, 97, 97, 97, 97, 97, 97, 195] := by
    decide
  have hlen : badPartName.data.length = 16 := by decide
  have hb : ∀ k, k ≤ 16 →
      ¬ ((utf8Encode (String.mk (badPartName.data.take k))).length ≤ 16 ∧
        ([97, 97, 97, 97, 97, 97, 97, 97, 97, 97, 97, 97, 97, 97, 97, 195] :
            List Nat) =
          utf8Encode (String.mk (badPartName.data.take k)) ++
            List.replicate
              (16 - (utf8Encode (String.mk (badPartName.data.take k))).length)
              0) := by
    decide
  rintro ⟨k, hk, hfit, heq⟩
  rw [hfield] at heq
  exact hb k (hlen ▸ hk) ⟨hfit, heq⟩

/-- C6: with both inputs empty the builder succeeds for any in-range
scalar metadata; the raw and package size fields decode to 0 and both
payload CRC fields hold the CRC-32 of the empty sequence, which is 0. -/
theorem empty_inputs_succeed (a a2 ts : Nat) (pn fv pc : String)
    (h1 : a < 65536) (h2 : a2 < 65536) (h3 : ts < 4294967296) :
    (create_firmware_header [] [] a a2 ts pn fv pc).isSome = true ∧
    crc32 [] = 0 ∧
    fromLE32 ((((create_firmware_header [] [] a a2 ts pn fv pc).getD
        []).drop 84).take 4) = 0 ∧
    fromLE32 ((((create_firmware_header [] [] a a2 ts pn fv pc).getD
        []).drop 88).take 4) = 0 ∧
    (((create_firmware_header [] [] a a2 ts pn fv pc).getD []).drop 76).take 4 =
      le32 (crc32 []) ∧
    (((create_firmware_header [] [] a a2 ts pn fv pc).getD []).drop 80).take 4 =
      le32 (crc32 []) := by
  have hs : create_firmware_header [] [] a a2 ts pn fv pc =
      some (fullHeader [] [] a a2 ts pn fv pc) :=
    (create_firmware_header_eq_some [] [] a a2 ts pn fv pc _).mpr
      ⟨h1, h2, h3, by decide, by decide, rfl⟩
  rw [hs]
  simp only [Option.isSome_some, Option.getD_some]
  refine ⟨trivial, by decide, ?_, ?_, ?_, ?_⟩
  · rw [fullHeader_drop_take [] [] a a2 ts pn fv pc (by norm_num : 84 + 4 ≤ 92),
        headerBody_raw_size]
    decide
  · rw [fullHeader_drop_take [] [] a a2 ts pn fv pc (by norm_num : 88 + 4 ≤ 92),
        headerBody_pkg_size]
    decide
  · rw [fullHeader_drop_take [] [] a a2 ts pn fv pc (by norm_num : 76 + 4 ≤ 92),
        headerBody_pkg_crc]
  · rw [fullHeader_drop_take [] [] a a2 ts pn fv pc (by norm_num : 80 + 4 ≤ 92),
        headerBody_raw_crc]

theorem empty_inputs_succeed_witness :
    (create_firmware_header [] [] 1024 0 1700000000 "app" "v1.00"
        "00010203040506070809").isSome = true ∧
    fromLE32 ((((create_firmware_header [] [] 1024 0 1700000000 "app" "v1.00"
        "00010203040506070809").getD []).drop 84).take 4) = 0 := by
  have h := empty_inputs_succeed 1024 0 1700000000 "app" "v1.00"
    "00010203040506070809" (by norm_num) (by norm_num) (by norm_num)
  exact ⟨h.1, h.2.2.1⟩

/-- C7 counterexample: with a timestamp of 2^32 the builder fails (the
`struct.pack` range check raises, i.e. the result is `none`) instead of
truncating the value to 32 bits as the claim states. -/
theorem timestamp_no_truncation_cex :
    create_firmware_header [] [] 1024 0 4294967296 "app" "v1.00"
      "00010203040506070809" = none := by
  decide

/-- C7 (amended): the builder performs no validation of the timestamp
beyond the `struct.pack` range check: a value representable in 32 bits
is packed unchanged as a little-endian uint32, while a value 2^32 or
wider makes the whole construction fail with a `struct.error` rather
than being truncated to 32 bits. -/
theorem timestamp_packed_or_error (fw patch : List Nat) (a a2 ts : Nat)
    (pn fv pc : String) :
    (4294967296 ≤ ts →
      create_firmware_header fw patch a a2 ts pn fv pc = none) ∧
    (∀ hd, create_firmware_header fw patch a a2 ts pn fv pc = some hd →
      ts < 4294967296 ∧ (hd.drop 8).take 4 = le32 ts) := by
  constructor
  · intro hts
    by_cases h1 : a < 65536 <;> by_cases h2 : a2 < 65536 <;>
      simp [create_firmware_header, pack_u16, pack_u32, h1, h2,
        Nat.not_lt.mpr hts]
  · intro hd h
    obtain ⟨-, -, h3, -, -, rfl⟩ :=
      (create_firmware_header_eq_some fw patch a a2 ts pn fv pc hd).mp h
    refine ⟨h3, ?_⟩
    rw [fullHeader_drop_take fw patch a a2 ts pn fv pc (by norm_num : 8 + 4 ≤ 92),
        headerBody_timestamp]

theorem timestamp_packed_or_error_witness :
    create_firmware_header [6] [7] 0 0 4294967296 "a" "b" "c" = none ∧
    (((create_firmware_header [6] [7] 0 0 5 "a" "b" "c").getD
        []).drop 8).take 4 = le32 5 := by
  constructor
  · exact (timestamp_packed_or_error [6] [7] 0 0 4294967296 "a" "b" "c").1
      (by norm_num)
  · exact ((timestamp_packed_or_error [6] [7] 0 0 5 "a" "b" "c").2
      ((create_firmware_header [6] [7] 0 0 5 "a" "b" "c").getD [])
      (by decide)).2

/-- C8: header construction never fails because of string lengths: for
any metadata strings, including ones whose UTF-8 encodings exceed the
16/24/24-byte field widths, the builder succeeds whenever the scalar
arguments are in range — over-length strings are truncated, not
rejected.  UTF-8 encoding itself is total here because Lean strings
contain only Unicode scalar values, matching the spec's `practically
unreachable` encoding failure; CRC-32 and in-range integer packing
cannot fail. -/
theorem no_failure_on_long_strings (fw patch : List Nat) (a a2 ts : Nat)
    (pn fv pc : String) (h1 : a < 65536) (h2 : a2 < 65536)
    (h3 : ts < 4294967296) (h4 : fw.length < 4294967296)
    (h5 : patch.length < 4294967296) :
    (create_firmware_header fw patch a a2 ts pn fv pc).isSome = true := by
  rw [(create_firmware_header_eq_some fw patch a a2 ts pn fv pc
    (fullHeader fw patch a a2 ts pn fv pc)).mpr ⟨h1, h2, h3, h4, h5, rfl⟩]
  rfl

theorem no_failure_on_long_strings_witness :
    (create_firmware_header [1] [2] 1024 0 1700000000
      "aaaaaaaaaaaaaaaaaaaaaaaaaaaaaaaaaaaaaaaa"
      "bbbbbbbbbbbbbbbbbbbbbbbbbbbbbbbbbbbbbbbb"
      "cccccccccccccccccccccccccccccccccccccccc").isSome = true :=
  no_failure_on_long_strings [1] [2] 1024 0 1700000000
    "aaaaaaaaaaaaaaaaaaaaaaaaaaaaaaaaaaaaaaaa"
    "bbbbbbbbbbbbbbbbbbbbbbbbbbbbbbbbbbbbbbbb"
    "cccccccccccccccccccccccccccccccccccccccc"
    (by norm_num) (by norm_num) (by norm_num) (by decide) (by decide)

/-- C9: end-to-end scenario with firmware bytes `b'FIRMWAREDATA'` (12
bytes) and patch bytes `b'PATCHDATA'` (9 bytes), algo 1024, algo2 0,
timestamp 1700000000 and the hard-coded metadata strings: the package is
the header immediately followed by the raw patch bytes with no extra
framing, its length is the fixed header length 96 plus 9, the raw size
field decodes to 12, the package size field decodes to 9, and the two
payload CRC fields hold the CRC-32 of the firmware and patch bytes
respectively. -/
theorem end_to_end_scenario :
    (package_patch_bytes patchDemo fwDemo 1700000000).isSome = true ∧
    (package_patch_bytes patchDemo fwDemo 1700000000).getD [] =
      ((create_firmware_header fwDemo patchDemo 1024 0 1700000000
          "app" "v1.00" "00010203040506070809").getD []) ++ patchDemo ∧
    ((package_patch_bytes patchDemo fwDemo 1700000000).getD []).length =
      96 + 9 ∧
    fromLE32 ((((package_patch_bytes patchDemo fwDemo 1700000000).getD
        []).drop 84).take 4) = 12 ∧
    fromLE32 ((((package_patch_bytes patchDemo fwDemo 1700000000).getD
        []).drop 88).take 4) = 9 ∧
    (((package_patch_bytes patchDemo fwDemo 1700000000).getD
        []).drop 80).take 4 = le32 (crc32 fwDemo) ∧
    (((package_patch_bytes patchDemo fwDemo 1700000000).getD
        []).drop 76).take 4 = le32 (crc32 patchDemo) :=
  ⟨by decide, by decide, by decide, by decide, by decide, by decide, by decide⟩
